import Mathlib

/-!
Verification of the MLH-Axon honeypot traffic classifier and its
real-time session coordinator, as a shallow embedding of the Python
sources (`src/features.py`, `src/honeypot.py`, `src/traffic_monitor.py`,
`src/worker.py`) into Lean.

Conventions of the embedding:
* Python floats are modelled as real numbers (`ℝ`) where the code computes
  transcendental quantities (`math.log2`), and as rationals (`ℚ`) where the
  code only does field arithmetic on exactly-representable values, so that
  the classifier stays computable and decidable.
* Python `round(x, n)` (round half to even, at `n` decimal digits) is
  modelled by `pyRound`.
* WebSocket handles are identified by their Python `id()`, modelled as `ℕ`;
  the `sessions` list and the `session_ids` dict of the `TrafficMonitor`
  durable object become a `List ℕ` and an association list.
* A `try/except` around an individual `session.send` is modelled by a
  send-outcome function `sendOk : ℕ → Bool`: `sendOk s = false` means
  `send` raised for that session, and the handler is total (the exception
  is caught locally), mirroring the `except` branch that records the
  session in `dead_sessions`.
-/

/-- Python `round(x, 0)` as an integer: round half to even.
`round` (Mathlib) rounds half up, so on a tie we round `x / 2` and double. -/
def pyRoundInt {α : Type} [LinearOrderedField α] [FloorRing α] (x : α) : ℤ :=
  if Int.fract x = 1 / 2 then 2 * round (x / 2) else round x

/-- Python `round(x, d)`: round to `d` decimal digits, half to even. -/
def pyRound {α : Type} [LinearOrderedField α] [FloorRing α] (d : ℕ) (x : α) : α :=
  (pyRoundInt (x * 10 ^ d) : α) / 10 ^ d

/-! ## `features.py` : entropy (`get_request_entropy`, lines 5-22) -/

/-- `url.split("?")[0].split("#")[0]` (features.py line 11): the prefix of
the character list before the first `?`, then before the first `#`. -/
def stripQF (l : List Char) : List Char :=
  (l.takeWhile (fun c => c ≠ '?')).takeWhile (fun c => c ≠ '#')

/-- `collections.Counter(path)` (features.py line 14): each distinct
character paired with its number of occurrences.  The iteration order of a
`Counter` is first-insertion order; the order is irrelevant here because
the entropy below is a commutative sum over this list. -/
def charCounts (l : List Char) : List (Char × ℕ) :=
  l.dedup.map (fun c => (c, l.count c))

/-- The accumulation loop of features.py lines 17-20:
`entropy -= probability * log2(probability)` over the character counts. -/
noncomputable def rawEntropy (l : List Char) : ℝ :=
  ((charCounts l).map
    (fun p => -(((p.2 : ℝ) / (l.length : ℝ)) *
      Real.logb 2 (((p.2 : ℝ) / (l.length : ℝ)))))).sum

/-- `get_request_entropy` (features.py lines 5-22): `0` on the empty
string, otherwise the Shannon entropy of the query/fragment-stripped URL,
rounded to 2 decimal digits (`round(entropy, 2)`, line 22). -/
noncomputable def get_request_entropy (url : String) : ℝ :=
  if url = "" then 0 else pyRound 2 (rawEntropy (stripQF url.data))

/-! ## `honeypot.py` : feature bundle and `classify_request` (lines 44-111)

The feature dictionary produced by `extract_features` is embedded as a
structure holding exactly the fields `classify_request` reads.  Risk
levels are the literal strings `"low"`/`"medium"`/`"high"` the detectors
produce, compared by string equality exactly as the Python does. -/

structure UAParsed where
  is_bot : Bool
  client : String
deriving DecidableEq

structure SqlInjection where
  has_sql_pattern : Bool
  sql_pattern_count : ℕ
  risk_level : String
deriving DecidableEq

structure PathTraversal where
  has_traversal : Bool
  traversal_count : ℕ
  risk_level : String
deriving DecidableEq

structure SensitiveFiles where
  accesses_sensitive : Bool
  count : ℕ
deriving DecidableEq

structure CommonExploits where
  has_exploits : Bool
  total_patterns : ℕ
  risk_level : String
deriving DecidableEq

structure PathChars where
  length : ℕ
  num_slashes : ℕ
  num_dots : ℕ
  suspicious_chars : Bool
deriving DecidableEq

structure Features where
  path_entropy : ℚ
  path_chars : PathChars
  ua_parsed : UAParsed
  sql_injection : SqlInjection
  path_traversal : PathTraversal
  sensitive_files : SensitiveFiles
  common_exploits : CommonExploits
deriving DecidableEq

structure Verdict where
  label : String
  confidence : ℚ
  score : ℕ
  bot_score : ℤ
  reasons : List String
deriving DecidableEq

/-- honeypot.py lines 50-52: bot user-agent contributes 30. -/
def botPoints (f : Features) : ℕ :=
  if f.ua_parsed.is_bot then 30 else 0

/-- honeypot.py lines 55-61: SQL-injection contributes 40 (high) / 25 (medium). -/
def sqlPoints (f : Features) : ℕ :=
  if f.sql_injection.has_sql_pattern then
    if f.sql_injection.risk_level = "high" then 40
    else if f.sql_injection.risk_level = "medium" then 25
    else 0
  else 0

/-- honeypot.py lines 64-70: path traversal contributes 40 (high) / 25 (medium). -/
def traversalPoints (f : Features) : ℕ :=
  if f.path_traversal.has_traversal then
    if f.path_traversal.risk_level = "high" then 40
    else if f.path_traversal.risk_level = "medium" then 25
    else 0
  else 0

/-- honeypot.py lines 73-75: sensitive file access contributes 35. -/
def sensitivePoints (f : Features) : ℕ :=
  if f.sensitive_files.accesses_sensitive then 35 else 0

/-- honeypot.py lines 78-84: common exploits contribute 35 (high) / 20 (medium). -/
def exploitPoints (f : Features) : ℕ :=
  if f.common_exploits.has_exploits then
    if f.common_exploits.risk_level = "high" then 35
    else if f.common_exploits.risk_level = "medium" then 20
    else 0
  else 0

/-- honeypot.py lines 87-89: path entropy above 4.5 contributes 20. -/
def entropyPoints (f : Features) : ℕ :=
  if f.path_entropy > 4.5 then 20 else 0

/-- honeypot.py lines 92-94: suspicious characters contribute 15. -/
def charsPoints (f : Features) : ℕ :=
  if f.path_chars.suspicious_chars then 15 else 0

/-- honeypot.py lines 97-99: a Cloudflare bot score below 30 contributes 20. -/
def reputationPoints (cf_bot_score : ℤ) : ℕ :=
  if cf_bot_score < 30 then 20 else 0

/-- The accumulated `score` of `classify_request` (honeypot.py lines 46-99):
the sequential `score += w` accumulation is the sum of the eight
independently-triggered contributions, in evaluation order. -/
def totalScore (f : Features) (cf_bot_score : ℤ) : ℕ :=
  botPoints f + sqlPoints f + traversalPoints f + sensitivePoints f +
    exploitPoints f + entropyPoints f + charsPoints f +
    reputationPoints cf_bot_score

/-- The `reasons` list of `classify_request`, appended in the same order the
signals are evaluated (honeypot.py lines 47-99). -/
def reasonTags (f : Features) (cf_bot_score : ℤ) : List String :=
  (if f.ua_parsed.is_bot then ["bot_user_agent"] else []) ++
  (if f.sql_injection.has_sql_pattern then
    if f.sql_injection.risk_level = "high" then ["sql_injection_high"]
    else if f.sql_injection.risk_level = "medium" then ["sql_injection_medium"]
    else []
   else []) ++
  (if f.path_traversal.has_traversal then
    if f.path_traversal.risk_level = "high" then ["path_traversal_high"]
    else if f.path_traversal.risk_level = "medium" then ["path_traversal_medium"]
    else []
   else []) ++
  (if f.sensitive_files.accesses_sensitive then ["sensitive_file_access"] else []) ++
  (if f.common_exploits.has_exploits then
    if f.common_exploits.risk_level = "high" then ["exploit_patterns_high"]
    else if f.common_exploits.risk_level = "medium" then ["exploit_patterns_medium"]
    else []
   else []) ++
  (if f.path_entropy > 4.5 then ["high_entropy"] else []) ++
  (if f.path_chars.suspicious_chars then ["suspicious_chars"] else []) ++
  (if cf_bot_score < 30 then ["cf_bot_score_low"] else [])

/-- `classify_request` (honeypot.py lines 44-111).  `is_attack = score >= 40`,
`confidence = round(min(score / 100, 1.0), 3)`. -/
def classify_request (f : Features) (cf_bot_score : ℤ) : Verdict :=
  let score := totalScore f cf_bot_score
  { label := if 40 ≤ score then "attack" else "legit"
    confidence := pyRound 3 (min ((score : ℚ) / 100) 1)
    score := score
    bot_score := cf_bot_score
    reasons := reasonTags f cf_bot_score }

/-- The `path_entropy` field of the bundle built by `extract_features`
(honeypot.py line 32): `get_request_entropy(url)` applied to the FULL
request URL (`request.url`), not to a path with protocol and host removed. -/
noncomputable def extracted_path_entropy (url : String) : ℝ :=
  get_request_entropy url

/-- Everything after the first `"://"`, if any (the protocol-strip of
features.py line 145, `path.split("://", 1)[1]`, specialised to the case
of at most one occurrence, which the definition below handles by searching
for the first one). -/
def afterProtocolMark : List Char → Option (List Char)
  | [] => none
  | c :: rest =>
      if [':', '/', '/'].isPrefixOf (c :: rest) then some ((c :: rest).drop 3)
      else afterProtocolMark rest

/-- The spec's "undecoded path only": the URL with protocol and host
prefix excluded, following the repository's own stripping convention
(features.py lines 143-147: drop through `"://"`, then keep `"/"` plus
everything after the first `"/"`). -/
def specPathOnly (l : List Char) : List Char :=
  match afterProtocolMark l with
  | none => l
  | some rest =>
      if '/' ∈ rest then '/' :: ((rest.dropWhile (fun c => c ≠ '/')).drop 1)
      else rest

/-- The path entropy as the spec describes it for the feature bundle:
computed over the path only, with the protocol and host prefix excluded
as well as the query and fragment.  Kept side by side with
`extracted_path_entropy` to compare code against spec. -/
noncomputable def spec_path_entropy (url : String) : ℝ :=
  if url = "" then 0 else pyRound 2 (rawEntropy (stripQF (specPathOnly url.data)))

/-! ## `traffic_monitor.py` / `worker.py` : the `TrafficMonitor` durable object

State (both revisions, `__init__`): `self.sessions = []` and
`self.session_ids = {}` mapping `id(ws)` to the generated session id. -/

structure MonitorState where
  sessions : List ℕ
  session_ids : List (ℕ × String)
deriving DecidableEq

/-- An inbound dashboard message as `webSocketMessage` sees it after the
`json.loads` attempt: either text that fails to parse as JSON, or a parsed
object from which only `data.get("type", "")` and
`data.get("prediction", "all")` are read. -/
inductive InboundMsg where
  | notJson (raw : String)
  | jsonMsg (type_field : Option String) (prediction_field : Option String)
deriving DecidableEq

/-- The reply `webSocketMessage` sends back on the receiving socket.
Timestamps (`Date.now()`) are environment-supplied and omitted. -/
inductive Reply where
  | pong
  | stats (total_connections : ℕ)
  | ack (message : String)
  | errorReply (message : String) (code : ℕ)
  | echo (raw : String)
deriving DecidableEq

/-- `webSocketMessage` (traffic_monitor.py lines 54-103, identically
`on_webSocketMessage` in worker.py lines 53-102): dispatch on
`data.get("type", "")`; non-JSON input is echoed back with an `"Echo: "`
prefix; an unknown type gets a structured 400 error.  Returns the
post-state and the reply sent to the receiving socket; no branch mutates
the state. -/
def webSocketMessage (st : MonitorState) (msg : InboundMsg) :
    MonitorState × Reply :=
  match msg with
  | .notJson raw => (st, .echo ("Echo: " ++ raw))
  | .jsonMsg t p =>
      let msg_type := t.getD ""
      if msg_type = "ping" then (st, .pong)
      else if msg_type = "get_stats" then (st, .stats st.sessions.length)
      else if msg_type = "filter" then
        -- lines 81-84: the handler prints `data.get('prediction', 'all')`
        -- and sends the ack; the prediction value is not written anywhere.
        let _ := p.getD "all"
        (st, .ack "Filter applied")
      else (st, .errorReply ("Unknown message type: " ++ msg_type) 400)

/-- `webSocketClose` (traffic_monitor.py lines 105-113, identically
`on_webSocketClose` in worker.py lines 104-112): remove the socket from
`sessions` (first occurrence, as `list.remove`) and delete its
`session_ids` entry when present; do nothing when the socket is absent. -/
def webSocketClose (st : MonitorState) (ws : ℕ) : MonitorState :=
  if ws ∈ st.sessions then
    { sessions := st.sessions.erase ws
      session_ids :=
        if (st.session_ids.lookup ws).isSome then
          st.session_ids.filter (fun p => p.1 ≠ ws)
        else st.session_ids }
  else st

/-- `webSocketError` (traffic_monitor.py lines 115-123, identically
`on_webSocketError` in worker.py lines 114-122): same removal logic as
`webSocketClose`. -/
def webSocketError (st : MonitorState) (ws : ℕ) : MonitorState :=
  if ws ∈ st.sessions then
    { sessions := st.sessions.erase ws
      session_ids :=
        if (st.session_ids.lookup ws).isSome then
          st.session_ids.filter (fun p => p.1 ≠ ws)
        else st.session_ids }
  else st

/-- `broadcast` (traffic_monitor.py lines 125-148, identically worker.py
lines 124-147).  `sendOk s = false` means `session.send` raised for `s`
and the `except` branch appended `s` to `dead_sessions`.  After the send
loop, each dead session is removed from `self.sessions` (guarded
`list.remove`, first occurrence).  `session_ids` is not touched. -/
def broadcast (st : MonitorState) (sendOk : ℕ → Bool) : MonitorState :=
  let dead_sessions := st.sessions.filter (fun s => ¬ sendOk s)
  { st with
    sessions :=
      dead_sessions.foldl
        (fun acc s => if s ∈ acc then acc.erase s else acc) st.sessions }

/-- A feature bundle / reputation pair in which none of the eight scoring
signals of `classify_request` is triggered (the clean baseline of the
monotonicity property; reputation at least 30 is the neutral range). -/
def CleanBundle (f : Features) (cf : ℤ) : Prop :=
  f.ua_parsed.is_bot = false ∧
  f.sql_injection.has_sql_pattern = false ∧
  f.path_traversal.has_traversal = false ∧
  f.sensitive_files.accesses_sensitive = false ∧
  f.common_exploits.has_exploits = false ∧
  f.path_entropy ≤ 4.5 ∧
  f.path_chars.suspicious_chars = false ∧
  30 ≤ cf

/-- A concrete clean baseline bundle (a benign `/api/users`-like request
from a regular browser). -/
def cleanExample : Features :=
  { path_entropy := 3
    path_chars := { length := 10, num_slashes := 2, num_dots := 0,
                    suspicious_chars := false }
    ua_parsed := { is_bot := false, client := "chrome" }
    sql_injection := { has_sql_pattern := false, sql_pattern_count := 0,
                       risk_level := "low" }
    path_traversal := { has_traversal := false, traversal_count := 0,
                        risk_level := "low" }
    sensitive_files := { accesses_sensitive := false, count := 0 }
    common_exploits := { has_exploits := false, total_patterns := 0,
                         risk_level := "low" } }

/-! ## Helper lemmas: Python rounding -/

theorem pyRoundInt_intCast {α : Type} [LinearOrderedField α] [FloorRing α]
    (m : ℤ) : pyRoundInt (m : α) = m := by
  unfold pyRoundInt
  rw [Int.fract_intCast]
  have h : (0 : α) ≠ 1 / 2 := by norm_num
  rw [if_neg h, round_intCast]

theorem pyRound_eq_self {α : Type} [LinearOrderedField α] [FloorRing α]
    (d : ℕ) (x : α) (m : ℤ) (h : x * 10 ^ d = (m : α)) : pyRound d x = x := by
  unfold pyRound
  rw [h, pyRoundInt_intCast, ← h]
  have hd : (10 : α) ^ d ≠ 0 := by positivity
  field_simp

theorem pyRoundInt_nonneg {α : Type} [LinearOrderedField α] [FloorRing α]
    (x : α) (hx : 0 ≤ x) : 0 ≤ pyRoundInt x := by
  unfold pyRoundInt
  split
  · have : (0 : ℤ) ≤ round (x / 2) := by
      rw [round_eq]
      have : (0 : α) ≤ x / 2 + 1 / 2 := by linarith
      exact_mod_cast Int.floor_nonneg.mpr this
    omega
  · rw [round_eq]
    have : (0 : α) ≤ x + 1 / 2 := by linarith
    exact_mod_cast Int.floor_nonneg.mpr this

theorem pyRoundInt_gt {α : Type} [LinearOrderedField α] [FloorRing α]
    (x : α) : x - 1 < (pyRoundInt x : α) := by
  unfold pyRoundInt
  split
  · push_cast
    have := Int.sub_one_lt_floor (x / 2 + 1 / 2)
    rw [round_eq]
    linarith
  · rw [round_eq]
    have := Int.sub_one_lt_floor (x + 1 / 2)
    linarith

theorem pyRound_nonneg {α : Type} [LinearOrderedField α] [FloorRing α]
    (d : ℕ) (x : α) (hx : 0 ≤ x) : 0 ≤ pyRound d x := by
  unfold pyRound
  have h1 : (0 : ℤ) ≤ pyRoundInt (x * 10 ^ d) :=
    pyRoundInt_nonneg _ (by positivity)
  have h2 : (0 : α) ≤ (pyRoundInt (x * 10 ^ d) : α) := by exact_mod_cast h1
  positivity

theorem pyRound_two_pos {α : Type} [LinearOrderedField α] [FloorRing α]
    (x : α) (hx : 3 ≤ x) : 0 < pyRound 2 x := by
  unfold pyRound
  have h1 : x * 10 ^ 2 - 1 < (pyRoundInt (x * 10 ^ 2) : α) := pyRoundInt_gt _
  have h2 : (299 : α) ≤ x * 10 ^ 2 - 1 := by nlinarith
  have h3 : (0 : α) < (pyRoundInt (x * 10 ^ 2) : α) := by linarith
  positivity

/-! ## Helper lemmas: the classifier -/

theorem botPoints_le (f : Features) : botPoints f ≤ 30 := by
  unfold botPoints; split <;> omega

theorem sqlPoints_le (f : Features) : sqlPoints f ≤ 40 := by
  unfold sqlPoints; split <;> [skip; omega] <;> split <;> [omega; skip] <;>
    split <;> omega

theorem traversalPoints_le (f : Features) : traversalPoints f ≤ 40 := by
  unfold traversalPoints; split <;> [skip; omega] <;> split <;> [omega; skip] <;>
    split <;> omega

theorem sensitivePoints_le (f : Features) : sensitivePoints f ≤ 35 := by
  unfold sensitivePoints; split <;> omega

theorem exploitPoints_le (f : Features) : exploitPoints f ≤ 35 := by
  unfold exploitPoints; split <;> [skip; omega] <;> split <;> [omega; skip] <;>
    split <;> omega

theorem entropyPoints_le (f : Features) : entropyPoints f ≤ 20 := by
  unfold entropyPoints; split <;> omega

theorem charsPoints_le (f : Features) : charsPoints f ≤ 15 := by
  unfold charsPoints; split <;> omega

theorem reputationPoints_le (cf : ℤ) : reputationPoints cf ≤ 20 := by
  unfold reputationPoints; split <;> omega

/-- C1 -- The verdict of `classify_request` is labelled `"attack"` exactly
when the accumulated score is at least 40 (non-strict at the boundary),
and `"legit"` exactly when the score is below 40. -/
theorem classify_request_label_iff (f : Features) (cf : ℤ) :
    ((classify_request f cf).label = "attack" ↔
      40 ≤ (classify_request f cf).score) ∧
    ((classify_request f cf).label = "legit" ↔
      (classify_request f cf).score < 40) := by
  unfold classify_request
  by_cases h : 40 ≤ totalScore f cf <;> simp [h] <;> omega

/-- C2 -- The confidence of every verdict equals `min(score/100, 1.0)`
rounded to 3 decimal places (here the rounding is the identity, because
the score is an integer so `score/100` has at most two decimal digits),
and it always lies in `[0, 1]`. -/
theorem classify_request_confidence (f : Features) (cf : ℤ) :
    (classify_request f cf).confidence =
      pyRound 3 (min (((classify_request f cf).score : ℚ) / 100) 1) ∧
    0 ≤ (classify_request f cf).confidence ∧
    (classify_request f cf).confidence ≤ 1 := by
  have hq : ∀ s : ℕ, pyRound 3 (min ((s : ℚ) / 100) 1) = min ((s : ℚ) / 100) 1 := by
    intro s
    apply pyRound_eq_self 3 _ (min ((s : ℤ) * 10) 1000)
    have h10 : ((10 : ℚ)) ^ (3 : ℕ) = 1000 := by norm_num
    rw [h10]
    rcases le_or_lt ((s : ℚ) / 100) 1 with h | h
    · have hs : (s : ℚ) ≤ 100 := by linarith
      have hs' : s ≤ 100 := by exact_mod_cast hs
      rw [min_eq_left h,
        show min ((s : ℤ) * 10) 1000 = (s : ℤ) * 10 from min_eq_left (by omega)]
      push_cast
      ring
    · have hs : (100 : ℚ) < s := by linarith
      have hs' : 100 < s := by exact_mod_cast hs
      rw [min_eq_right h.le,
        show min ((s : ℤ) * 10) 1000 = 1000 from min_eq_right (by omega)]
      norm_num
  refine ⟨?_, ?_, ?_⟩
  · rfl
  · show 0 ≤ pyRound 3 (min ((totalScore f cf : ℚ) / 100) 1)
    rw [hq]
    exact le_min (by positivity) (by norm_num)
  · show pyRound 3 (min ((totalScore f cf : ℚ) / 100) 1) ≤ 1
    rw [hq]
    exact min_le_right _ _

/-- C9 -- The accumulated score of `classify_request` is bounded above by
235, the sum of the eight maximal signal weights
30 + 40 + 40 + 35 + 35 + 20 + 15 + 20. -/
theorem classify_request_score_le (f : Features) (cf : ℤ) :
    (classify_request f cf).score ≤ 235 := by
  show totalScore f cf ≤ 235
  have h1 := botPoints_le f
  have h2 := sqlPoints_le f
  have h3 := traversalPoints_le f
  have h4 := sensitivePoints_le f
  have h5 := exploitPoints_le f
  have h6 := entropyPoints_le f
  have h7 := charsPoints_le f
  have h8 := reputationPoints_le cf
  unfold totalScore
  omega


theorem cleanBundle_score_eq_zero (f : Features) (cf : ℤ)
    (h : CleanBundle f cf) : totalScore f cf = 0 := by
  obtain ⟨h1, h2, h3, h4, h5, h6, h7, h8⟩ := h
  unfold totalScore botPoints sqlPoints traversalPoints sensitivePoints
    exploitPoints entropyPoints charsPoints reputationPoints
  rw [h1, h2, h3, h4, h5, h7]
  simp only [Bool.false_eq_true, if_false]
  have h6' : ¬ (4.5 : ℚ) < f.path_entropy := not_lt.mpr h6
  have h8' : ¬ cf < 30 := not_lt.mpr h8
  rw [if_neg h6', if_neg h8']

/-- C7 -- Starting from any clean baseline (no signal triggered, neutral
reputation), switching on any single one of the eight triggering signals -
bot user-agent, SQL injection at medium or high risk, path traversal at
medium or high risk, sensitive-file access, common exploits at medium or
high risk, path entropy above 4.5, suspicious characters, or reputation
below 30 - strictly increases the score of `classify_request`. -/
theorem classify_request_monotone (f : Features) (cf : ℤ)
    (h : CleanBundle f cf) :
    (classify_request f cf).score <
      (classify_request { f with ua_parsed := { f.ua_parsed with is_bot := true } } cf).score ∧
    (classify_request f cf).score <
      (classify_request { f with sql_injection :=
        { f.sql_injection with has_sql_pattern := true, risk_level := "medium" } } cf).score ∧
    (classify_request f cf).score <
      (classify_request { f with sql_injection :=
        { f.sql_injection with has_sql_pattern := true, risk_level := "high" } } cf).score ∧
    (classify_request f cf).score <
      (classify_request { f with path_traversal :=
        { f.path_traversal with has_traversal := true, risk_level := "medium" } } cf).score ∧
    (classify_request f cf).score <
      (classify_request { f with path_traversal :=
        { f.path_traversal with has_traversal := true, risk_level := "high" } } cf).score ∧
    (classify_request f cf).score <
      (classify_request { f with sensitive_files :=
        { f.sensitive_files with accesses_sensitive := true } } cf).score ∧
    (classify_request f cf).score <
      (classify_request { f with common_exploits :=
        { f.common_exploits with has_exploits := true, risk_level := "medium" } } cf).score ∧
    (classify_request f cf).score <
      (classify_request { f with common_exploits :=
        { f.common_exploits with has_exploits := true, risk_level := "high" } } cf).score ∧
    (∀ e : ℚ, 4.5 < e →
      (classify_request f cf).score <
        (classify_request { f with path_entropy := e } cf).score) ∧
    (classify_request f cf).score <
      (classify_request { f with path_chars :=
        { f.path_chars with suspicious_chars := true } } cf).score ∧
    (∀ r : ℤ, r < 30 →
      (classify_request f cf).score < (classify_request f r).score) := by
  obtain ⟨h1, h2, h3, h4, h5, h6, h7, h8⟩ := h
  have hz : totalScore f cf = 0 :=
    cleanBundle_score_eq_zero f cf ⟨h1, h2, h3, h4, h5, h6, h7, h8⟩
  have hbase : (classify_request f cf).score = 0 := hz
  rw [hbase]
  have h6' : ¬ (4.5 : ℚ) < f.path_entropy := not_lt.mpr h6
  have h8' : ¬ cf < 30 := not_lt.mpr h8
  refine ⟨?_, ?_, ?_, ?_, ?_, ?_, ?_, ?_, ?_, ?_, ?_⟩ <;>
    first
      | (intro e he
         show 0 < totalScore _ _
         unfold totalScore botPoints sqlPoints traversalPoints sensitivePoints
           exploitPoints entropyPoints charsPoints reputationPoints
         simp only [h1, h2, h3, h4, h5, h7, Bool.false_eq_true, if_false]
         rw [if_pos he, if_neg h8']
         omega)
      | (intro r hr
         show 0 < totalScore _ _
         unfold totalScore botPoints sqlPoints traversalPoints sensitivePoints
           exploitPoints entropyPoints charsPoints reputationPoints
         simp only [h1, h2, h3, h4, h5, h7, Bool.false_eq_true, if_false]
         rw [if_neg h6', if_pos hr]
         omega)
      | (show 0 < totalScore _ _
         unfold totalScore botPoints sqlPoints traversalPoints sensitivePoints
           exploitPoints entropyPoints charsPoints reputationPoints
         simp only [h1, h2, h3, h4, h5, h7, Bool.false_eq_true, if_false,
           if_true, String.reduceEq]
         rw [if_neg h6', if_neg h8']
         omega)

/-! ## Helper lemmas: the session coordinator -/

theorem foldl_guarded_erase (d : List ℕ) :
    ∀ acc : List ℕ, acc.Nodup →
      d.foldl (fun a s => if s ∈ a then a.erase s else a) acc =
        acc.filter (fun s => s ∉ d) := by
  induction d with
  | nil => intro acc _; simp
  | cons s0 rest ih =>
      intro acc hacc
      have hstep : (if s0 ∈ acc then acc.erase s0 else acc) =
          acc.filter (fun s => s ≠ s0) := by
        by_cases hmem : s0 ∈ acc
        · rw [if_pos hmem, List.Nodup.erase_eq_filter hacc]
          apply List.filter_congr
          intro a _
          by_cases h : a = s0 <;> simp [h]
        · rw [if_neg hmem, eq_comm, List.filter_eq_self]
          intro a ha
          simp only [ne_eq, decide_eq_true_eq]
          exact fun h => hmem (h ▸ ha)
      rw [List.foldl_cons, hstep, ih _ (hacc.filter _), List.filter_filter]
      apply List.filter_congr
      intro a _
      simp only [List.mem_cons, decide_not, Bool.and_comm]
      by_cases h1 : a = s0 <;> by_cases h2 : a ∈ rest <;> simp [h1, h2]

/-- C3 -- A send failure on one session is caught locally and does not
abort delivery to the rest: after a broadcast pass the live set is exactly
the sessions whose send succeeded (every failing session has been pruned),
and with a single connected observer whose send fails the live count drops
to 0 and a subsequent broadcast iterates over the empty live set.  The
model's `broadcast` is a total function: the per-session exception never
escapes the pass. -/
theorem broadcast_prunes_failed (st : MonitorState) (sendOk : ℕ → Bool)
    (h : st.sessions.Nodup) :
    (broadcast st sendOk).sessions = st.sessions.filter sendOk ∧
    (∀ s : ℕ, st.sessions = [s] → sendOk s = false →
      (broadcast st sendOk).sessions.length = 0 ∧
      (broadcast (broadcast st sendOk) sendOk).sessions = []) := by
  have key : ∀ st' : MonitorState, st'.sessions.Nodup →
      (broadcast st' sendOk).sessions = st'.sessions.filter sendOk := by
    intro st' h'
    show (st'.sessions.filter (fun s => ¬ sendOk s)).foldl
        (fun a s => if s ∈ a then a.erase s else a) st'.sessions =
      st'.sessions.filter sendOk
    rw [foldl_guarded_erase _ _ h']
    apply List.filter_congr
    intro a ha
    by_cases hs : sendOk a <;>
      simp [List.mem_filter, ha, hs]
  refine ⟨key st h, ?_⟩
  intro s hs hfail
  have h1 : (broadcast st sendOk).sessions = [] := by
    rw [key st h, hs]
    simp [hfail]
  refine ⟨by rw [h1]; rfl, ?_⟩
  have h2 : (broadcast st sendOk).sessions.Nodup := by rw [h1]; exact List.nodup_nil
  rw [key _ h2, h1]
  rfl

/-- The concrete scenario of C3 applied: one observer (socket id 1) whose
send fails; after the broadcast the live set is empty. -/
theorem broadcast_prunes_failed_witness :
    ([1] : List ℕ).Nodup ∧
    (broadcast ⟨[1], [(1, "sid")]⟩ (fun _ => false)).sessions = [] ∧
    (broadcast (broadcast ⟨[1], [(1, "sid")]⟩ (fun _ => false))
      (fun _ => false)).sessions = [] := by
  have hnd : ([1] : List ℕ).Nodup := by decide
  have h := broadcast_prunes_failed ⟨[1], [(1, "sid")]⟩ (fun _ => false) hnd
  have h2 := (h.2 1 rfl rfl).2
  refine ⟨hnd, ?_, h2⟩
  rw [h.1]
  rfl

/-- C8 -- Disconnect is idempotent, for both the close handler and the
transport-error handler: removing a socket that is absent from the live
set is a no-op that leaves the whole state (live sessions and
session-identifier mapping) unchanged, and a second disconnect for the
same socket after a first removal changes nothing. -/
theorem disconnect_idempotent (st : MonitorState) (ws : ℕ) :
    (ws ∉ st.sessions → webSocketClose st ws = st ∧ webSocketError st ws = st) ∧
    (st.sessions.count ws ≤ 1 →
      webSocketClose (webSocketClose st ws) ws = webSocketClose st ws ∧
      webSocketError (webSocketError st ws) ws = webSocketError st ws) := by
  constructor
  · intro habs
    exact ⟨if_neg habs, if_neg habs⟩
  · intro hcount
    by_cases hmem : ws ∈ st.sessions
    · have h1 : 1 ≤ st.sessions.count ws := List.one_le_count_iff.mpr hmem
      have herase : ws ∉ st.sessions.erase ws := by
        intro hmem2
        have := List.count_erase_self ws st.sessions
        have h2 : 1 ≤ (st.sessions.erase ws).count ws :=
          List.one_le_count_iff.mpr hmem2
        omega
      have hc : (webSocketClose st ws).sessions = st.sessions.erase ws := by
        unfold webSocketClose
        rw [if_pos hmem]
      have he : (webSocketError st ws).sessions = st.sessions.erase ws := by
        unfold webSocketError
        rw [if_pos hmem]
      have hc2 : ws ∉ (webSocketClose st ws).sessions := by
        rw [hc]; exact herase
      have he2 : ws ∉ (webSocketError st ws).sessions := by
        rw [he]; exact herase
      exact ⟨if_neg hc2, if_neg he2⟩
    · have h1 : webSocketClose st ws = st := if_neg hmem
      have h2 : webSocketError st ws = st := if_neg hmem
      rw [h1, h2]
      exact ⟨h1, h2⟩

/-- C8 applied concretely: disconnecting socket 5, absent from a state
holding only socket 1, is a no-op; and a double disconnect of socket 1
equals a single disconnect. -/
theorem disconnect_idempotent_witness :
    webSocketClose ⟨[1], [(1, "sid")]⟩ 5 = ⟨[1], [(1, "sid")]⟩ ∧
    webSocketClose (webSocketClose ⟨[1], [(1, "sid")]⟩ 1) 1 =
      webSocketClose ⟨[1], [(1, "sid")]⟩ 1 :=
  ⟨((disconnect_idempotent ⟨[1], [(1, "sid")]⟩ 5).1 (by decide)).1,
   ((disconnect_idempotent ⟨[1], [(1, "sid")]⟩ 1).2 (by decide)).1⟩

/-- C4 as stated is false at this input: handling
`{"type": "filter", "prediction": "attack"}` leaves the coordinator state
(the sessions and their per-session data) completely unchanged - no filter
preference is stored anywhere - even though the acknowledgment is sent. -/
theorem filter_message_stores_nothing :
    (webSocketMessage ⟨[7], [(7, "sid")]⟩
        (.jsonMsg (some "filter") (some "attack"))).1 =
      (⟨[7], [(7, "sid")]⟩ : MonitorState) ∧
    (webSocketMessage ⟨[7], [(7, "sid")]⟩
        (.jsonMsg (some "filter") (some "attack"))).2 =
      .ack "Filter applied" := by
  constructor <;> rfl

/-- C4 amended -- A control message of type `"filter"` (with any
prediction field) is answered with the acknowledgment
`{"type": "ack", "message": "Filter applied"}`, but the preference is not
stored: the handler returns the state unchanged (the code only logs the
prediction; per-session storage is left as a future enhancement). -/
theorem filter_message_acks_unchanged (st : MonitorState)
    (p : Option String) :
    webSocketMessage st (.jsonMsg (some "filter") p) =
      (st, .ack "Filter applied") := by
  rfl

/-- C10 -- A syntactically valid JSON control message whose `type` field
is absent or not one of `ping`/`get_stats`/`filter` is answered with a
structured error of code 400 whose message starts with
`"Unknown message type"`; no JSON message is ever answered on the
`"Echo:"` path, which is reserved for payloads that fail to parse as
JSON. -/
theorem unknown_type_gets_400 (st : MonitorState)
    (t p : Option String)
    (h1 : t.getD "" ≠ "ping") (h2 : t.getD "" ≠ "get_stats")
    (h3 : t.getD "" ≠ "filter") :
    (webSocketMessage st (.jsonMsg t p)).2 =
      .errorReply ("Unknown message type: " ++ t.getD "") 400 ∧
    (∀ t' p' raw, (webSocketMessage st (.jsonMsg t' p')).2 ≠ .echo raw) ∧
    (∀ raw, (webSocketMessage st (.notJson raw)).2 = .echo ("Echo: " ++ raw)) := by
  refine ⟨?_, ?_, fun raw => rfl⟩
  · show (if t.getD "" = "ping" then _
      else if t.getD "" = "get_stats" then _
      else if t.getD "" = "filter" then _
      else (st, Reply.errorReply ("Unknown message type: " ++ t.getD "") 400)).2 = _
    rw [if_neg h1, if_neg h2, if_neg h3]
  · intro t' p' raw
    show (if t'.getD "" = "ping" then (st, Reply.pong)
      else if t'.getD "" = "get_stats" then (st, Reply.stats st.sessions.length)
      else if t'.getD "" = "filter" then (st, Reply.ack "Filter applied")
      else (st, Reply.errorReply ("Unknown message type: " ++ t'.getD "") 400)).2 ≠
        Reply.echo raw
    split
    · exact fun hcontra => Reply.noConfusion hcontra
    · split
      · exact fun hcontra => Reply.noConfusion hcontra
      · split
        · exact fun hcontra => Reply.noConfusion hcontra
        · exact fun hcontra => Reply.noConfusion hcontra

/-- C10 applied concretely: a JSON message with no `type` field at all is
answered with the 400 "Unknown message type: " error. -/
theorem unknown_type_gets_400_witness :
    (webSocketMessage ⟨[1], [(1, "sid")]⟩ (.jsonMsg none none)).2 =
      .errorReply ("Unknown message type: " ++ (none : Option String).getD "") 400 :=
  (unknown_type_gets_400 ⟨[1], [(1, "sid")]⟩ none none
    (by decide) (by decide) (by decide)).1

/-! ## Helper lemmas: entropy -/

theorem logb2_two_pow (k : ℕ) : Real.logb 2 ((2 : ℝ) ^ k) = k := by
  rw [Real.logb_pow, Real.logb_self_eq_one (by norm_num)]
  ring

theorem logb2_inv_two_pow (k : ℕ) : Real.logb 2 (((2 : ℝ) ^ k)⁻¹) = -(k : ℝ) := by
  rw [Real.logb_inv, logb2_two_pow]

theorem rawEntropy_nonneg (l : List Char) : 0 ≤ rawEntropy l := by
  unfold rawEntropy
  apply List.sum_nonneg
  intro x hx
  simp only [List.mem_map] at hx
  obtain ⟨⟨c, cnt⟩, hmem, rfl⟩ := hx
  simp only [charCounts, List.mem_map] at hmem
  obtain ⟨c', _, hpair⟩ := hmem
  have hcnt : cnt = l.count c' := by
    have := congrArg Prod.snd hpair
    simpa using this.symm
  set n := l.length with hn
  rcases Nat.eq_zero_or_pos n with hz | hpos
  · have : ((n : ℝ)) = 0 := by exact_mod_cast hz
    simp [this]
  · set p : ℝ := (cnt : ℝ) / (n : ℝ) with hp
    have hn0 : (0 : ℝ) < (n : ℝ) := by exact_mod_cast hpos
    have hple : cnt ≤ n := by
      rw [hcnt, hn]
      exact List.count_le_length c' l
    have hp0 : 0 ≤ p := by positivity
    have hp1 : p ≤ 1 := by
      rw [hp, div_le_one hn0]
      exact_mod_cast hple
    have hlog : Real.logb 2 p ≤ 0 :=
      Real.logb_nonpos (by norm_num) hp0 hp1
    simp only [neg_nonneg]
    exact mul_nonpos_of_nonneg_of_nonpos hp0 hlog

theorem rawEntropy_s32 :
    rawEntropy ("abccddddeeeeeeeeffffffffffffffff".data) = 31 / 16 := by
  have hcounts : charCounts ("abccddddeeeeeeeeffffffffffffffff".data) =
      [('a', 1), ('b', 1), ('c', 2), ('d', 4), ('e', 8), ('f', 16)] := by decide
  have hlen : ("abccddddeeeeeeeeffffffffffffffff".data).length = 32 := by decide
  unfold rawEntropy
  rw [hcounts, hlen]
  simp only [List.map_cons, List.map_nil, List.sum_cons, List.sum_nil]
  push_cast
  rw [show (1 : ℝ) / 32 = ((2 : ℝ) ^ (5 : ℕ))⁻¹ by norm_num,
    show (2 : ℝ) / 32 = ((2 : ℝ) ^ (4 : ℕ))⁻¹ by norm_num,
    show (4 : ℝ) / 32 = ((2 : ℝ) ^ (3 : ℕ))⁻¹ by norm_num,
    show (8 : ℝ) / 32 = ((2 : ℝ) ^ (2 : ℕ))⁻¹ by norm_num,
    show (16 : ℝ) / 32 = ((2 : ℝ) ^ (1 : ℕ))⁻¹ by norm_num,
    logb2_inv_two_pow, logb2_inv_two_pow, logb2_inv_two_pow,
    logb2_inv_two_pow, logb2_inv_two_pow]
  norm_num

theorem rawEntropy_url16 :
    rawEntropy ("ab://cdefghi/x/y".data) = 7 / 2 := by
  have hcounts : charCounts ("ab://cdefghi/x/y".data) =
      [('a', 1), ('b', 1), (':', 1), ('c', 1), ('d', 1), ('e', 1), ('f', 1),
       ('g', 1), ('h', 1), ('i', 1), ('x', 1), ('/', 4), ('y', 1)] := by decide
  have hlen : ("ab://cdefghi/x/y".data).length = 16 := by decide
  unfold rawEntropy
  rw [hcounts, hlen]
  simp only [List.map_cons, List.map_nil, List.sum_cons, List.sum_nil]
  push_cast
  rw [show (1 : ℝ) / 16 = ((2 : ℝ) ^ (4 : ℕ))⁻¹ by norm_num,
    show (4 : ℝ) / 16 = ((2 : ℝ) ^ (2 : ℕ))⁻¹ by norm_num,
    logb2_inv_two_pow, logb2_inv_two_pow]
  norm_num

theorem rawEntropy_path4 : rawEntropy ("/x/y".data) = 3 / 2 := by
  have hcounts : charCounts ("/x/y".data) =
      [('x', 1), ('/', 2), ('y', 1)] := by decide
  have hlen : ("/x/y".data).length = 4 := by decide
  unfold rawEntropy
  rw [hcounts, hlen]
  simp only [List.map_cons, List.map_nil, List.sum_cons, List.sum_nil]
  push_cast
  rw [show (1 : ℝ) / 4 = ((2 : ℝ) ^ (2 : ℕ))⁻¹ by norm_num,
    show (2 : ℝ) / 4 = ((2 : ℝ) ^ (1 : ℕ))⁻¹ by norm_num,
    logb2_inv_two_pow, logb2_inv_two_pow]
  norm_num

theorem rawEntropy_rep12 : rawEntropy ("aaaaaaaaaaaa".data) = 0 := by
  have hcounts : charCounts ("aaaaaaaaaaaa".data) = [('a', 12)] := by decide
  have hlen : ("aaaaaaaaaaaa".data).length = 12 := by decide
  unfold rawEntropy
  rw [hcounts, hlen]
  simp only [List.map_cons, List.map_nil, List.sum_cons, List.sum_nil]
  push_cast
  norm_num [Real.logb_one]

theorem rawEntropy_mixed12 :
    rawEntropy ("a1B2c3D4e5F6".data) = Real.logb 2 12 := by
  have hcounts : charCounts ("a1B2c3D4e5F6".data) =
      [('a', 1), ('1', 1), ('B', 1), ('2', 1), ('c', 1), ('3', 1), ('D', 1),
       ('4', 1), ('e', 1), ('5', 1), ('F', 1), ('6', 1)] := by decide
  have hlen : ("a1B2c3D4e5F6".data).length = 12 := by decide
  unfold rawEntropy
  rw [hcounts, hlen]
  simp only [List.map_cons, List.map_nil, List.sum_cons, List.sum_nil]
  push_cast
  rw [show (1 : ℝ) / 12 = ((12 : ℝ))⁻¹ by norm_num, Real.logb_inv]
  ring

theorem logb2_twelve_ge_three : (3 : ℝ) ≤ Real.logb 2 12 := by
  have h8 : Real.logb 2 8 = 3 := by
    rw [show (8 : ℝ) = 2 ^ (3 : ℕ) by norm_num, logb2_two_pow]
    norm_num
  rw [← h8]
  exact Real.logb_le_logb_of_le (by norm_num) (by norm_num) (by norm_num)

theorem pyRound2_31_16 : pyRound 2 ((31 : ℝ) / 16) = 97 / 50 := by
  unfold pyRound pyRoundInt
  have hx : (31 : ℝ) / 16 * 10 ^ 2 = 775 / 4 := by norm_num
  rw [hx]
  have hfl : ⌊(775 / 4 : ℝ)⌋ = 193 := by
    rw [Int.floor_eq_iff]
    norm_num
  have hfract : Int.fract ((775 / 4 : ℝ)) = 3 / 4 := by
    rw [Int.fract, hfl]
    norm_num
  rw [hfract, if_neg (by norm_num : (3 : ℝ) / 4 ≠ 1 / 2), round_eq]
  have hfl2 : ⌊(775 / 4 : ℝ) + 1 / 2⌋ = 194 := by
    rw [show (775 / 4 : ℝ) + 1 / 2 = 777 / 4 by norm_num, Int.floor_eq_iff]
    norm_num
  rw [hfl2]
  norm_num

theorem get_request_entropy_of_ne (url : String) (h : url ≠ "") :
    get_request_entropy url = pyRound 2 (rawEntropy (stripQF url.data)) := by
  unfold get_request_entropy
  rw [if_neg h]

/-- C5 amended -- `get_request_entropy` is nonnegative on every string,
is `0` on the empty string, equals on every non-empty string the Shannon
entropy `-sum p * log2 p` of the character frequencies of the input with
query and fragment stripped ROUNDED TO 2 DECIMAL DIGITS (the rounding
`round(entropy, 2)` on line 22 of features.py is part of the result), and
the entropy of a 12-fold repeated character is strictly below the entropy
of a 12-character mixed-alphanumeric string. -/
theorem get_request_entropy_spec :
    (∀ s : String, 0 ≤ get_request_entropy s) ∧
    get_request_entropy "" = 0 ∧
    (∀ s : String, s ≠ "" →
      get_request_entropy s = pyRound 2 (rawEntropy (stripQF s.data))) ∧
    get_request_entropy "aaaaaaaaaaaa" < get_request_entropy "a1B2c3D4e5F6" := by
  refine ⟨?_, ?_, get_request_entropy_of_ne, ?_⟩
  · intro s
    unfold get_request_entropy
    split
    · exact le_refl 0
    · exact pyRound_nonneg 2 _ (rawEntropy_nonneg _)
  · rfl
  · have hrep : get_request_entropy "aaaaaaaaaaaa" = 0 := by
      rw [get_request_entropy_of_ne _ (by decide),
        show stripQF ("aaaaaaaaaaaa".data) = "aaaaaaaaaaaa".data from by decide,
        rawEntropy_rep12]
      exact pyRound_eq_self 2 0 0 (by norm_num)
    have hmix : 0 < get_request_entropy "a1B2c3D4e5F6" := by
      rw [get_request_entropy_of_ne _ (by decide),
        show stripQF ("a1B2c3D4e5F6".data) = "a1B2c3D4e5F6".data from by decide,
        rawEntropy_mixed12]
      exact pyRound_two_pos _ logb2_twelve_ge_three
    rw [hrep]
    exact hmix

/-- C5 as literally stated is false: on the 32-character input below the
returned value is the 2-decimal rounding 1.94 of the exact Shannon
entropy 31/16 = 1.9375, not the exact Shannon entropy itself. -/
theorem get_request_entropy_not_exact :
    get_request_entropy "abccddddeeeeeeeeffffffffffffffff" ≠
      rawEntropy (stripQF ("abccddddeeeeeeeeffffffffffffffff".data)) := by
  rw [get_request_entropy_of_ne _ (by decide),
    show stripQF ("abccddddeeeeeeeeffffffffffffffff".data) =
      "abccddddeeeeeeeeffffffffffffffff".data from by decide,
    rawEntropy_s32, pyRound2_31_16]
  norm_num

/-- C5 applied concretely: the non-emptiness hypothesis discharged on a
concrete URL. -/
theorem get_request_entropy_spec_witness :
    ("/x/y" : String) ≠ "" ∧
    get_request_entropy "/x/y" = pyRound 2 (rawEntropy (stripQF "/x/y".data)) :=
  ⟨by decide, get_request_entropy_spec.2.2.1 "/x/y" (by decide)⟩

/-- C6 as stated is false: `extract_features` computes the `path_entropy`
field over the full URL, protocol and host included.  On the URL
`ab://cdefghi/x/y` the field is 3.5 (entropy of the whole URL), while the
entropy of the path alone (`/x/y`) is 1.5. -/
theorem extracted_path_entropy_uses_full_url :
    extracted_path_entropy "ab://cdefghi/x/y" = 7 / 2 ∧
    spec_path_entropy "ab://cdefghi/x/y" = 3 / 2 ∧
    extracted_path_entropy "ab://cdefghi/x/y" ≠
      spec_path_entropy "ab://cdefghi/x/y" := by
  have h1 : extracted_path_entropy "ab://cdefghi/x/y" = 7 / 2 := by
    show get_request_entropy _ = _
    rw [get_request_entropy_of_ne _ (by decide),
      show stripQF ("ab://cdefghi/x/y".data) = "ab://cdefghi/x/y".data from by decide,
      rawEntropy_url16]
    exact pyRound_eq_self 2 _ 350 (by norm_num)
  have h2 : spec_path_entropy "ab://cdefghi/x/y" = 3 / 2 := by
    unfold spec_path_entropy
    rw [if_neg (by decide : ("ab://cdefghi/x/y" : String) ≠ ""),
      show stripQF (specPathOnly ("ab://cdefghi/x/y".data)) = "/x/y".data from by decide,
      rawEntropy_path4]
    exact pyRound_eq_self 2 _ 150 (by norm_num)
  refine ⟨h1, h2, ?_⟩
  rw [h1, h2]
  norm_num

/-- C6 amended -- For every inbound request, the `path_entropy` field of
the feature bundle is `get_request_entropy` applied to the FULL request
URL: only the query and the fragment are stripped before the entropy is
computed; the protocol and host prefix is NOT excluded. -/
theorem extracted_path_entropy_spec (url : String) (h : url ≠ "") :
    extracted_path_entropy url = get_request_entropy url ∧
    extracted_path_entropy url = pyRound 2 (rawEntropy (stripQF url.data)) :=
  ⟨rfl, get_request_entropy_of_ne url h⟩

/-- C6 amended, applied concretely. -/
theorem extracted_path_entropy_spec_witness :
    extracted_path_entropy "/x/y" = pyRound 2 (rawEntropy (stripQF "/x/y".data)) :=
  (extracted_path_entropy_spec "/x/y" (by decide)).2

/-- C7 applied concretely: on the clean example bundle with neutral
reputation 50, switching on the bot user-agent signal strictly increases
the score, and so does dropping the reputation below 30. -/
theorem classify_request_monotone_witness :
    CleanBundle cleanExample 50 ∧
    (classify_request cleanExample 50).score <
      (classify_request { cleanExample with
        ua_parsed := { cleanExample.ua_parsed with is_bot := true } } 50).score ∧
    (classify_request cleanExample 50).score <
      (classify_request cleanExample 15).score :=
  ⟨⟨rfl, rfl, rfl, rfl, rfl, by norm_num [cleanExample], rfl, by decide⟩,
   (classify_request_monotone cleanExample 50
     ⟨rfl, rfl, rfl, rfl, rfl, by norm_num [cleanExample], rfl, by decide⟩).1,
   (classify_request_monotone cleanExample 50
     ⟨rfl, rfl, rfl, rfl, rfl, by norm_num [cleanExample], rfl,
       by decide⟩).2.2.2.2.2.2.2.2.2.2 15 (by decide)⟩
